import Mathlib

/-!
Verification of the concrete-strength SVM regression workflow.

The numeric values of the workflow are modelled as `PyFloat`: an ideal real
number or one of the IEEE special values (positive infinity, negative
infinity, NaN) that `numpy` operations can produce.  Fallible operations
(the sklearn validation helpers `check_is_fitted` / `check_array` and the
shape assertion inside `LogTransformer.transform`) are modelled with
`Except`.  External library collaborators whose internals the workflow
treats as opaque (the seeded shuffle inside `train_test_split`, the random
draws of `RandomizedSearchCV`, the t-distribution quantile of
`scipy.stats.t.interval`) are passed in as explicit deterministic
parameters, constrained only by the properties the libraries document.
-/

namespace ConcreteSVR

/-- A Python/numpy floating-point value: a finite real, an infinity, or NaN. -/
inductive PyFloat where
  | val (x : ℝ)
  | posInf
  | negInf
  | nan

/-- Finiteness test on a `PyFloat` (what `sklearn.utils.validation` checks). -/
def PyFloat.isFiniteB : PyFloat → Bool
  | .val _ => true
  | _ => false

/-- Elementwise behaviour of `np.log`: positive reals map to their natural
logarithm, zero maps to negative infinity, negative reals map to NaN. -/
noncomputable def pyLog : PyFloat → PyFloat
  | .val x => if 0 < x then .val (Real.log x) else if x = 0 then .negInf else .nan
  | .posInf => .posInf
  | .negInf => .nan
  | .nan => .nan

/-- Elementwise behaviour of `np.exp`. -/
noncomputable def pyExp : PyFloat → PyFloat
  | .val x => .val (Real.exp x)
  | .posInf => .posInf
  | .negInf => .val 0
  | .nan => .nan

/-- A pandas data frame: named columns and a list of rows of values.
`shape[1]` of the frame is the number of columns. -/
structure DataFrame where
  cols : List String
  rows : List (List PyFloat)

/-- Errors raised by the transform path: `NotFittedError` from
`check_is_fitted`, the `ValueError`s of `check_array` (non-finite entries,
zero samples or zero features), and the `AssertionError` of the shape
assert in `transform`. -/
inductive SkError where
  | notFitted
  | nonFinite
  | badShape
  | assertionError
deriving DecidableEq

/-- State of the custom `LogTransformer`: the two attributes set by `fit`
(`feature_names_`, `n_features_in_`), absent before `fit` is called. -/
structure LogTransformer where
  feature_names_ : Option (List String)
  n_features_in_ : Option ℕ

/-- A freshly constructed, unfitted `LogTransformer()` (its `__init__` sets
no attributes). -/
def LogTransformer.new : LogTransformer := ⟨none, none⟩

/-- Embeds `LogTransformer.fit`: records the column identities and the column
count of the fitted frame; the numeric row values are never consulted. -/
def LogTransformer.fit (_t : LogTransformer) (X : DataFrame) : LogTransformer :=
  ⟨some X.cols, some X.cols.length⟩

/-- Embeds `sklearn.utils.validation.check_array` with its default settings:
rejects non-finite entries, then rejects empty inputs (zero samples or
zero features), otherwise passes the numeric matrix through. -/
def check_array (X : DataFrame) : Except SkError (List (List PyFloat)) :=
  if X.rows.all (fun r => r.all PyFloat.isFiniteB) then
    if X.rows.length = 0 then .error .badShape
    else if X.cols.length = 0 then .error .badShape
    else .ok X.rows
  else .error .nonFinite

/-- Embeds `LogTransformer.transform`: `check_is_fitted`, then `check_array`, then
the assert that `n_features_in_` equals the column count of the input,
then elementwise `np.log`. -/
noncomputable def LogTransformer.transform (t : LogTransformer) (X : DataFrame) :
    Except SkError (List (List PyFloat)) :=
  match t.n_features_in_ with
  | none => .error .notFitted
  | some n =>
    match check_array X with
    | .error e => .error e
    | .ok rows =>
      if n = X.cols.length then .ok (rows.map (List.map pyLog))
      else .error .assertionError

/-- Embeds `LogTransformer.get_feature_names_out`: returns the column names
recorded at fit time, ignoring its argument. -/
def LogTransformer.get_feature_names_out (t : LogTransformer)
    (_names : Option (List String)) : Option (List String) :=
  t.feature_names_

/-- Embeds `LogTransformer.inverse_transform`: elementwise `np.exp`, with no
fitted-state check and no shape validation. -/
noncomputable def LogTransformer.inverse_transform (_t : LogTransformer)
    (X : List (List PyFloat)) : List (List PyFloat) :=
  X.map (List.map pyExp)

/-- Helper: the successful path of `transform` on a fitted transformer. -/
theorem transform_fit_ok (t0 : LogTransformer) (Xtr X : DataFrame)
    (hfin : X.rows.all (fun r => r.all PyFloat.isFiniteB) = true)
    (hne : X.rows ≠ []) (hc : X.cols ≠ [])
    (hlen : Xtr.cols.length = X.cols.length) :
    (t0.fit Xtr).transform X = .ok (X.rows.map (List.map pyLog)) := by
  unfold LogTransformer.transform LogTransformer.fit check_array
  simp only [hfin, if_true]
  rw [if_neg (by simpa [List.length_eq_zero] using hne),
    if_neg (by simpa [List.length_eq_zero] using hc)]
  simp [hlen]

/-- C1: on a fitted `LogTransformer`, for every strictly positive-valued
matrix whose column count equals the fit-time column count (and which the
validator accepts: at least one row and one column), `inverse_transform`
composed with `transform` recovers the input exactly; in the real-number
idealisation of floating point, the round-trip law `exp (log x) = x`
holds with no error at all. -/
theorem c1_round_trip (t0 : LogTransformer) (Xtr X : DataFrame)
    (hne : X.rows ≠ []) (hc : X.cols ≠ [])
    (hlen : Xtr.cols.length = X.cols.length)
    (hpos : ∀ r ∈ X.rows, ∀ f ∈ r, ∃ x : ℝ, f = PyFloat.val x ∧ 0 < x) :
    ∃ R, (t0.fit Xtr).transform X = .ok R ∧
      (t0.fit Xtr).inverse_transform R = X.rows := by
  have hfin : X.rows.all (fun r => r.all PyFloat.isFiniteB) = true := by
    rw [List.all_eq_true]
    intro r hr
    rw [List.all_eq_true]
    intro f hf
    obtain ⟨x, hx, -⟩ := hpos r hr f hf
    subst hx
    rfl
  refine ⟨_, transform_fit_ok t0 Xtr X hfin hne hc hlen, ?_⟩
  unfold LogTransformer.inverse_transform
  rw [List.map_map]
  have hrow : ∀ r ∈ X.rows, (List.map pyExp ∘ List.map pyLog) r = r := by
    intro r hr
    have hent : ∀ f ∈ r, (pyExp ∘ pyLog) f = f := by
      intro f hf
      obtain ⟨x, hx, hxpos⟩ := hpos r hr f hf
      subst hx
      simp [pyLog, pyExp, if_pos hxpos, Real.exp_log hxpos, Function.comp]
    calc (List.map pyExp ∘ List.map pyLog) r = r.map (pyExp ∘ pyLog) := by
          simp [List.map_map]
      _ = r.map id := List.map_congr_left hent
      _ = r := List.map_id r
  calc X.rows.map (List.map pyExp ∘ List.map pyLog)
      = X.rows.map id := List.map_congr_left hrow
    _ = X.rows := List.map_id X.rows

/-- C1 witness: the round trip at a concrete fitted transformer and a
concrete positive one-entry matrix. -/
theorem c1_round_trip_witness :
    ∃ R, ((LogTransformer.new.fit ⟨["age"], [[.val 2]]⟩).transform
        ⟨["age"], [[.val 3]]⟩) = .ok R ∧
      (LogTransformer.new.fit ⟨["age"], [[.val 2]]⟩).inverse_transform R
        = [[.val 3]] :=
  c1_round_trip LogTransformer.new ⟨["age"], [[.val 2]]⟩ ⟨["age"], [[.val 3]]⟩
    (by simp) (by simp) rfl
    (by
      intro r hr f hf
      simp only [List.mem_singleton] at hr
      subst hr
      simp only [List.mem_singleton] at hf
      exact ⟨3, hf, by norm_num⟩)

/-- C3: `transform` before `fit` fails with the not-fitted error; on a
fitted transformer, a finite numeric input whose column count differs
from the fit-time column count fails with the shape assertion error; and
when fitted with matching column count (input non-degenerate: at least
one row and one column) it returns the elementwise natural logarithm. -/
theorem c3_transform_contract :
    (∀ X : DataFrame, LogTransformer.new.transform X = .error .notFitted) ∧
    (∀ (t0 : LogTransformer) (Xtr X : DataFrame),
      X.rows.all (fun r => r.all PyFloat.isFiniteB) = true →
      X.rows ≠ [] → X.cols ≠ [] →
      Xtr.cols.length ≠ X.cols.length →
      (t0.fit Xtr).transform X = .error .assertionError) ∧
    (∀ (t0 : LogTransformer) (Xtr X : DataFrame),
      X.rows.all (fun r => r.all PyFloat.isFiniteB) = true →
      X.rows ≠ [] → X.cols ≠ [] →
      Xtr.cols.length = X.cols.length →
      (t0.fit Xtr).transform X = .ok (X.rows.map (List.map pyLog))) := by
  refine ⟨fun X => rfl, ?_, fun t0 Xtr X hfin hne hc hlen =>
    transform_fit_ok t0 Xtr X hfin hne hc hlen⟩
  intro t0 Xtr X hfin hne hc hlen
  unfold LogTransformer.transform LogTransformer.fit check_array
  simp only [hfin, if_true]
  rw [if_neg (by simpa [List.length_eq_zero] using hne),
    if_neg (by simpa [List.length_eq_zero] using hc)]
  simp [hlen]

/-- C3 witness: the three branches at concrete inputs. -/
theorem c3_transform_contract_witness :
    LogTransformer.new.transform ⟨["a"], [[.val 1]]⟩ = .error .notFitted ∧
    (LogTransformer.new.fit ⟨["a"], [[.val 1]]⟩).transform
      ⟨["a", "b"], [[.val 1, .val 2]]⟩ = .error .assertionError ∧
    (LogTransformer.new.fit ⟨["a"], [[.val 1]]⟩).transform
      ⟨["b"], [[.val 5]]⟩ = .ok ([[PyFloat.val 5]].map (List.map pyLog)) :=
  ⟨c3_transform_contract.1 ⟨["a"], [[.val 1]]⟩,
   c3_transform_contract.2.1 LogTransformer.new ⟨["a"], [[.val 1]]⟩
     ⟨["a", "b"], [[.val 1, .val 2]]⟩ (by rfl) (by simp) (by simp) (by decide),
   c3_transform_contract.2.2 LogTransformer.new ⟨["a"], [[.val 1]]⟩
     ⟨["b"], [[.val 5]]⟩ (by rfl) (by simp) (by simp) (by decide)⟩

/-- C6: a fitted transformer applied to a finite numeric matrix of the
right shape that contains a zero or negative entry does not raise: it
returns successfully, and the returned matrix contains a non-finite value
(negative infinity for zero, NaN for negative inputs), silently handed to
the downstream model. -/
theorem c6_nonpositive_silent (t0 : LogTransformer) (Xtr X : DataFrame)
    (hfin : X.rows.all (fun r => r.all PyFloat.isFiniteB) = true)
    (hne : X.rows ≠ []) (hc : X.cols ≠ [])
    (hlen : Xtr.cols.length = X.cols.length)
    (r : List PyFloat) (hr : r ∈ X.rows) (x : ℝ)
    (hmem : PyFloat.val x ∈ r) (hx : x ≤ 0) :
    (t0.fit Xtr).transform X = .ok (X.rows.map (List.map pyLog)) ∧
    ∃ r2 ∈ X.rows.map (List.map pyLog), ∃ g ∈ r2, g.isFiniteB = false := by
  refine ⟨transform_fit_ok t0 Xtr X hfin hne hc hlen, ?_⟩
  refine ⟨r.map pyLog, List.mem_map_of_mem _ hr, pyLog (.val x),
    List.mem_map_of_mem _ hmem, ?_⟩
  rw [pyLog, if_neg (not_lt.mpr hx)]
  by_cases h0 : x = 0
  · rw [if_pos h0]
    rfl
  · rw [if_neg h0]
    rfl

/-- C6 witness: transforming a matrix containing zero succeeds and yields
a non-finite entry. -/
theorem c6_nonpositive_silent_witness :
    (LogTransformer.new.fit ⟨["age"], [[.val 1]]⟩).transform
      ⟨["age"], [[.val 0]]⟩ = .ok ([[PyFloat.val 0]].map (List.map pyLog)) ∧
    ∃ r2 ∈ [[PyFloat.val 0]].map (List.map pyLog), ∃ g ∈ r2,
      g.isFiniteB = false :=
  c6_nonpositive_silent LogTransformer.new ⟨["age"], [[.val 1]]⟩
    ⟨["age"], [[.val 0]]⟩ (by rfl) (by simp) (by simp) rfl
    [PyFloat.val 0] (by simp) 0 (by simp) le_rfl

/-- C7: `inverse_transform` is the elementwise exponential for every
transformer state (fitted or not) and every matrix of every shape: its
output does not depend on the transformer at all, so it performs no
fitted-state or shape validation. -/
theorem c7_inverse_transform_total :
    (∀ (t : LogTransformer) (X : List (List PyFloat)),
      t.inverse_transform X = X.map (List.map pyExp)) ∧
    (∀ (t1 t2 : LogTransformer) (X : List (List PyFloat)),
      t1.inverse_transform X = t2.inverse_transform X) :=
  ⟨fun _ _ => rfl, fun _ _ _ => rfl⟩

/-- C9: on a fitted transformer, an input containing a NaN or infinite
entry is rejected by the `check_array` validation with an error, before
any logarithm is computed. -/
theorem c9_rejects_nonfinite (t : LogTransformer) (n : ℕ)
    (hfit : t.n_features_in_ = some n) (X : DataFrame)
    (r : List PyFloat) (hr : r ∈ X.rows) (f : PyFloat) (hf : f ∈ r)
    (hnf : f.isFiniteB = false) :
    t.transform X = .error .nonFinite := by
  unfold LogTransformer.transform check_array
  rw [hfit]
  have hall : X.rows.all (fun r => r.all PyFloat.isFiniteB) = false := by
    rw [List.all_eq_false]
    refine ⟨r, hr, ?_⟩
    rw [Bool.not_eq_true, List.all_eq_false]
    exact ⟨f, hf, by rw [Bool.not_eq_true]; exact hnf⟩
  simp [hall]

/-- C9 witness: a fitted transformer rejects a matrix containing NaN. -/
theorem c9_rejects_nonfinite_witness :
    (LogTransformer.new.fit ⟨["age"], [[.val 1]]⟩).transform
      ⟨["age"], [[.nan]]⟩ = .error .nonFinite :=
  c9_rejects_nonfinite (LogTransformer.new.fit ⟨["age"], [[.val 1]]⟩) 1 rfl
    ⟨["age"], [[.nan]]⟩ [PyFloat.nan] (by simp) PyFloat.nan (by simp) rfl

/-- C10: fitting depends only on the column list of the input frame: two
fits on frames with equal column lists (regardless of the numeric rows
and of the prior transformer states) produce equal transformer states,
hence `transform`, `get_feature_names_out` and `inverse_transform`
behave identically on every subsequent input. -/
theorem c10_fit_ignores_values (t1 t2 : LogTransformer) (d1 d2 : DataFrame)
    (h : d1.cols = d2.cols) :
    t1.fit d1 = t2.fit d2 ∧
    (∀ Y : DataFrame, (t1.fit d1).transform Y = (t2.fit d2).transform Y) ∧
    (∀ ns, (t1.fit d1).get_feature_names_out ns
      = (t2.fit d2).get_feature_names_out ns) ∧
    (∀ M : List (List PyFloat), (t1.fit d1).inverse_transform M
      = (t2.fit d2).inverse_transform M) := by
  have hfit : t1.fit d1 = t2.fit d2 := by
    unfold LogTransformer.fit
    rw [h]
  exact ⟨hfit, fun Y => by rw [hfit], fun ns => by rw [hfit], fun M => by rw [hfit]⟩

/-- C10 witness: two fits on frames with the same single column but
different values agree on state and on a subsequent transform. -/
theorem c10_fit_ignores_values_witness :
    LogTransformer.new.fit ⟨["age"], [[.val 1]]⟩
      = LogTransformer.new.fit ⟨["age"], [[.val 2], [.val 3]]⟩ ∧
    (∀ Y : DataFrame, (LogTransformer.new.fit ⟨["age"], [[.val 1]]⟩).transform Y
      = (LogTransformer.new.fit ⟨["age"], [[.val 2], [.val 3]]⟩).transform Y) ∧
    (∀ ns, (LogTransformer.new.fit ⟨["age"], [[.val 1]]⟩).get_feature_names_out ns
      = (LogTransformer.new.fit ⟨["age"], [[.val 2], [.val 3]]⟩).get_feature_names_out ns) ∧
    (∀ M : List (List PyFloat),
      (LogTransformer.new.fit ⟨["age"], [[.val 1]]⟩).inverse_transform M
      = (LogTransformer.new.fit ⟨["age"], [[.val 2], [.val 3]]⟩).inverse_transform M) :=
  c10_fit_ignores_values LogTransformer.new LogTransformer.new
    ⟨["age"], [[.val 1]]⟩ ⟨["age"], [[.val 2], [.val 3]]⟩ rfl

/-- Arithmetic mean of a list (`np.mean`); contexts below only use it on
non-empty lists. -/
noncomputable def mean (xs : List ℝ) : ℝ := xs.sum / xs.length

/-- Embeds `mean_squared_error(yTrue, yPred, squared=False)`: the root of the
mean squared difference. -/
noncomputable def rmse (yTrue yPred : List ℝ) : ℝ :=
  Real.sqrt (mean (List.zipWith (fun a b => (a - b) ^ 2) yTrue yPred))

/-- The squared errors `(y_pred - y_test) ** 2` of the evaluation cell. -/
noncomputable def squared_errors (yPred yTest : List ℝ) : List ℝ :=
  List.zipWith (fun p a => (p - a) ^ 2) yPred yTest

/-- The value of `scipy.stats.sem` for at least two samples: sample
standard deviation (`ddof = 1`) divided by the square root of the sample
count. -/
noncomputable def semVal (xs : List ℝ) : ℝ :=
  Real.sqrt ((xs.map (fun x => (x - mean xs) ^ 2)).sum / ((xs.length : ℝ) - 1))
    / Real.sqrt xs.length

/-- Embeds `scipy.stats.sem`: with fewer than two samples the `ddof = 1`
standard deviation is 0/0, i.e. NaN (modelled as `none`). -/
noncomputable def sem (xs : List ℝ) : Option ℝ :=
  if xs.length ≤ 1 then none else some (semVal xs)

/-- Embeds `scipy.stats.t.interval(confidence, df, loc, scale)` for a two-sided
interval, parametrised by the upper-tail quantile `tq` of the
t-distribution with `df` degrees of freedom (the quantile itself is
opaque library internals): `(loc - tq * scale, loc + tq * scale)`.  A
zero `df` or a NaN scale yields NaN bounds. -/
noncomputable def t_interval (tq : ℝ) (df : ℕ) (loc : ℝ) (scale : Option ℝ) :
    Option ℝ × Option ℝ :=
  match scale with
  | none => (none, none)
  | some s => if df = 0 then (none, none)
      else (some (loc - tq * s), some (loc + tq * s))

/-- Embeds `np.sqrt` on a possibly-NaN scalar: NaN stays NaN, and the square
root of a negative number is NaN. -/
noncomputable def npSqrt : Option ℝ → Option ℝ
  | none => none
  | some x => if x < 0 then none else some (Real.sqrt x)

/-- The confidence-interval cell: square root of the 0.95 t-interval on
the squared errors, with `df = n - 1`, location the mean squared error
and scale its standard error; `tq` is the t quantile supplied by the
statistics library. -/
noncomputable def confidence_interval (tq : ℝ) (yPred yTest : List ℝ) :
    Option ℝ × Option ℝ :=
  let sq := squared_errors yPred yTest
  let iv := t_interval tq (sq.length - 1) (mean sq) (sem sq)
  (npSqrt iv.1, npSqrt iv.2)

/-- C2 counterexample: on the one-row test set with prediction 1 and
actual value 0 (a non-empty test set), the standard error of a single
squared error is NaN (0/0 with `ddof = 1`) and the degrees of freedom are
0, so both returned bounds are NaN (`none`): they are neither
non-negative nor ordered, and the claim as stated fails.  At this input
the result does not depend on the quantile argument at all (the scale is
already NaN and the degrees of freedom are zero), so the concrete value 2
stands in for whatever quantile the statistics library would supply. -/
theorem c2_counterexample :
    confidence_interval 2 [1] [0] = (none, none) ∧
    ¬ ∃ l u, confidence_interval 2 [1] [0] = (some l, some u)
      ∧ 0 ≤ l ∧ l ≤ u := by
  refine ⟨rfl, ?_⟩
  rintro ⟨l, u, h, -, -⟩
  rw [show confidence_interval 2 [1] [0] = (none, none) from rfl] at h
  simp at h

/-- C2 (amended): the RMSE is non-negative for every non-empty test set;
and on a test set with at least two rows, for a non-negative t quantile,
whenever the t-interval lower bound on the squared-error scale is
non-negative the returned interval bounds exist with
`0 ≤ lower ≤ upper`. -/
theorem c2_rmse_ci_bounds :
    (∀ yTest yPred : List ℝ, yTest ≠ [] → 0 ≤ rmse yTest yPred) ∧
    (∀ (tq : ℝ) (yPred yTest : List ℝ),
      yTest.length = yPred.length → 2 ≤ yPred.length → 0 ≤ tq →
      0 ≤ mean (squared_errors yPred yTest)
        - tq * semVal (squared_errors yPred yTest) →
      ∃ l u, confidence_interval tq yPred yTest = (some l, some u) ∧
        0 ≤ l ∧ l ≤ u) := by
  refine ⟨fun yTest yPred _ => Real.sqrt_nonneg _, ?_⟩
  intro tq yPred yTest hlen h2 htq hlb
  have hsq : (squared_errors yPred yTest).length = yPred.length := by
    rw [squared_errors, List.length_zipWith, hlen, min_self]
  have hs0 : 0 ≤ semVal (squared_errors yPred yTest) :=
    div_nonneg (Real.sqrt_nonneg _) (Real.sqrt_nonneg _)
  have hsem : sem (squared_errors yPred yTest)
      = some (semVal (squared_errors yPred yTest)) := by
    rw [sem, if_neg (by omega)]
  have hdf : (squared_errors yPred yTest).length - 1 ≠ 0 := by omega
  set sq := squared_errors yPred yTest with hsqdef
  set L := mean sq - tq * semVal sq with hL
  set U := mean sq + tq * semVal sq with hU
  have hLU : L ≤ U := by
    have : 0 ≤ tq * semVal sq := mul_nonneg htq hs0
    rw [hL, hU]
    linarith
  have hiv : confidence_interval tq yPred yTest = (npSqrt (some L), npSqrt (some U)) := by
    rw [confidence_interval, ← hsqdef, hsem]
    simp only [t_interval, hdf, if_false]
  refine ⟨Real.sqrt L, Real.sqrt U, ?_, Real.sqrt_nonneg _,
    Real.sqrt_le_sqrt hLU⟩
  rw [hiv, npSqrt, npSqrt, if_neg (not_lt.mpr hlb),
    if_neg (not_lt.mpr (le_trans hlb hLU))]

/-- C2 witness: the RMSE clause on a concrete one-row test set, and the
interval clause on a two-row test set with equal errors, whose zero
standard error makes the bounds exist, ordered and non-negative. -/
theorem c2_rmse_ci_bounds_witness :
    0 ≤ rmse [1] [2] ∧
    ∃ l u, confidence_interval 2 [2, 2] [0, 0] = (some l, some u) ∧
      0 ≤ l ∧ l ≤ u := by
  refine ⟨c2_rmse_ci_bounds.1 [1] [2] (by simp), ?_⟩
  refine c2_rmse_ci_bounds.2 2 [2, 2] [0, 0] rfl (by norm_num) (by norm_num) ?_
  have h1 : squared_errors [2, 2] [0, 0] = [4, 4] := by
    rw [squared_errors]
    norm_num
  have hm : mean [4, 4] = 4 := by
    rw [mean]
    norm_num
  have hs : semVal [4, 4] = 0 := by
    rw [semVal, hm]
    norm_num [Real.sqrt_zero]
  rw [h1, hm, hs]
  norm_num

/-- Modelled from the spec: `sklearn.model_selection.train_test_split`
is an external library collaborator (only its one-line call site is in
the notebook).  Per spec sections 3 and 4.1 it applies a seed-determined
pseudo-random reordering of the rows and splits off a test set of 0.2 of
the rows (rounded up, as the library rounds the test share up), the rest
being the training set.  The reordering is modelled as an explicit
deterministic `shuffle` function; the theorems assume only that it
permutes the rows.  Returns `(train, test)`. -/
def train_test_split {α : Type} (shuffle : ℕ → List α → List α)
    (seed : ℕ) (rows : List α) : List α × List α :=
  let shuffled := shuffle seed rows
  let nTest := (rows.length + 4) / 5
  (shuffled.drop nTest, shuffled.take nTest)

/-- C4: for any seed-determined shuffle that permutes the rows, the split
with seed 42 produces two pieces whose concatenation is a permutation of
the original table — every row instance lands in exactly one piece (no
overlap, full coverage) — and repeated calls return identical pairs. -/
theorem c4_split_partition {α : Type} (shuffle : ℕ → List α → List α)
    (rows : List α) (h : (shuffle 42 rows).Perm rows) :
    ((train_test_split shuffle 42 rows).2
      ++ (train_test_split shuffle 42 rows).1).Perm rows ∧
    train_test_split shuffle 42 rows = train_test_split shuffle 42 rows := by
  refine ⟨?_, rfl⟩
  have hsplit : (train_test_split shuffle 42 rows).2
      ++ (train_test_split shuffle 42 rows).1 = shuffle 42 rows :=
    List.take_append_drop _ _
  rw [hsplit]
  exact h

/-- C4 witness: a reversal shuffle on a concrete three-row table. -/
theorem c4_split_partition_witness :
    ((train_test_split (fun _ l => l.reverse) 42 [1, 2, 3]).2
      ++ (train_test_split (fun _ l => l.reverse) 42 [1, 2, 3]).1).Perm [1, 2, 3] ∧
    train_test_split (fun _ l => l.reverse) 42 [1, 2, 3]
      = train_test_split (fun _ l => l.reverse) 42 [1, 2, 3] :=
  c4_split_partition (fun _ l => l.reverse) [1, 2, 3] ([1, 2, 3].reverse_perm)

/-- The constant `c_lower_bound` of the search cell. -/
noncomputable def c_lower_bound : ℝ := 0.01

/-- The constant `c_upper_bound` of the search cell. -/
noncomputable def c_upper_bound : ℝ := 15.0

/-- The kernel choices of `param_distributions`. -/
def kernel_choices : List String := ["rbf", "linear"]

/-- The gamma-policy choices of `param_distributions`. -/
def gamma_choices : List String := ["auto", "scale"]

/-- One candidate configuration of the search space. -/
structure SVRConfig where
  kernel : String
  gamma : String
  C : ℝ

/-- One draw of `ParameterSampler` for `param_distributions`: a uniformly
chosen element of each discrete list (the RNG supplies the indices `kIdx`,
`gIdx`) and `C` drawn from `scipy.stats.uniform(loc=c_lower_bound,
scale=c_upper_bound - c_lower_bound)`, i.e. `loc + scale * u` where the
RNG draw `u` lies in the half-open unit interval. -/
noncomputable def sampleConfig (kIdx gIdx : ℕ → ℕ) (u : ℕ → ℝ) (i : ℕ) :
    SVRConfig :=
  ⟨kernel_choices.getD (kIdx i % kernel_choices.length) "rbf",
   gamma_choices.getD (gIdx i % gamma_choices.length) "auto",
   c_lower_bound + (c_upper_bound - c_lower_bound) * u i⟩

/-- The outcome of the randomized search: best configuration and its
cross-validated score. -/
structure SearchResult where
  best_params_ : SVRConfig
  best_score_ : ℝ

/-- Select the best-scoring configuration (greatest negative-RMSE score,
first occurrence winning ties, as `best_index_` takes the first best
rank); `none` only on an empty candidate list. -/
noncomputable def pickBest (score : SVRConfig → ℝ) :
    List SVRConfig → Option SearchResult
  | [] => none
  | c :: cs => some (cs.foldl
      (fun b c2 => if b.best_score_ < score c2 then ⟨c2, score c2⟩ else b)
      ⟨c, score c⟩)

/-- The constant `n_iter` of the search cell. -/
def n_iter : ℕ := 50

/-- Embeds `RandomizedSearchCV` with the notebook settings: 50 candidate
configurations sampled from `param_distributions` by the seeded RNG
streams, each evaluated by the deterministic seeded 5-fold
cross-validation scorer `score` (negative root-mean-squared error,
library internals opaque), keeping the best scorer. -/
noncomputable def svr_rnd_search (kIdx gIdx : ℕ → ℕ) (u : ℕ → ℝ)
    (score : SVRConfig → ℝ) : Option SearchResult :=
  pickBest score ((List.range n_iter).map (sampleConfig kIdx gIdx u))

/-- C5: the search is a pure function of the seeded RNG streams, the
scorer and nothing else, so two independent runs over the same training
data with the same seed return the identical best configuration and the
identical best cross-validated score. -/
theorem c5_search_deterministic (kIdx gIdx : ℕ → ℕ) (u : ℕ → ℝ)
    (score : SVRConfig → ℝ) (r1 r2 : Option SearchResult)
    (h1 : r1 = svr_rnd_search kIdx gIdx u score)
    (h2 : r2 = svr_rnd_search kIdx gIdx u score) :
    Option.map SearchResult.best_params_ r1
      = Option.map SearchResult.best_params_ r2 ∧
    Option.map SearchResult.best_score_ r1
      = Option.map SearchResult.best_score_ r2 := by
  subst h1
  subst h2
  exact ⟨rfl, rfl⟩

/-- C5 witness: two runs with concrete RNG streams and a concrete scorer
agree. -/
theorem c5_search_deterministic_witness :
    Option.map SearchResult.best_params_
        (svr_rnd_search (fun i => i) (fun i => i) (fun _ => 1 / 2) (fun c => -c.C))
      = Option.map SearchResult.best_params_
        (svr_rnd_search (fun i => i) (fun i => i) (fun _ => 1 / 2) (fun c => -c.C)) ∧
    Option.map SearchResult.best_score_
        (svr_rnd_search (fun i => i) (fun i => i) (fun _ => 1 / 2) (fun c => -c.C))
      = Option.map SearchResult.best_score_
        (svr_rnd_search (fun i => i) (fun i => i) (fun _ => 1 / 2) (fun c => -c.C)) :=
  c5_search_deterministic (fun i => i) (fun i => i) (fun _ => 1 / 2)
    (fun c => -c.C) _ _ rfl rfl

/-- C8: every configuration the sampler can produce (for unit-interval
`C` draws, as `numpy` random samples are) has kernel rbf or linear,
gamma policy auto or scale, and `C` in the half-open range
`[0.01, 15.0)`. -/
theorem c8_sample_ranges (kIdx gIdx : ℕ → ℕ) (u : ℕ → ℝ) (i : ℕ)
    (h0 : 0 ≤ u i) (h1 : u i < 1) :
    ((sampleConfig kIdx gIdx u i).kernel = "rbf"
      ∨ (sampleConfig kIdx gIdx u i).kernel = "linear") ∧
    ((sampleConfig kIdx gIdx u i).gamma = "auto"
      ∨ (sampleConfig kIdx gIdx u i).gamma = "scale") ∧
    c_lower_bound ≤ (sampleConfig kIdx gIdx u i).C ∧
    (sampleConfig kIdx gIdx u i).C < c_upper_bound := by
  refine ⟨?_, ?_, ?_, ?_⟩
  · rcases Nat.mod_two_eq_zero_or_one (kIdx i) with h | h
    · left
      simp [sampleConfig, kernel_choices, h]
    · right
      simp [sampleConfig, kernel_choices, h]
  · rcases Nat.mod_two_eq_zero_or_one (gIdx i) with h | h
    · left
      simp [sampleConfig, gamma_choices, h]
    · right
      simp [sampleConfig, gamma_choices, h]
  · show c_lower_bound ≤ c_lower_bound + (c_upper_bound - c_lower_bound) * u i
    rw [c_lower_bound, c_upper_bound]
    nlinarith
  · show c_lower_bound + (c_upper_bound - c_lower_bound) * u i < c_upper_bound
    rw [c_lower_bound, c_upper_bound]
    nlinarith

/-- C8 witness: a concrete draw lies in the documented ranges. -/
theorem c8_sample_ranges_witness :
    ((sampleConfig (fun _ => 0) (fun _ => 1) (fun _ => 1 / 2) 0).kernel = "rbf"
      ∨ (sampleConfig (fun _ => 0) (fun _ => 1) (fun _ => 1 / 2) 0).kernel = "linear") ∧
    ((sampleConfig (fun _ => 0) (fun _ => 1) (fun _ => 1 / 2) 0).gamma = "auto"
      ∨ (sampleConfig (fun _ => 0) (fun _ => 1) (fun _ => 1 / 2) 0).gamma = "scale") ∧
    c_lower_bound ≤ (sampleConfig (fun _ => 0) (fun _ => 1) (fun _ => 1 / 2) 0).C ∧
    (sampleConfig (fun _ => 0) (fun _ => 1) (fun _ => 1 / 2) 0).C < c_upper_bound :=
  c8_sample_ranges (fun _ => 0) (fun _ => 1) (fun _ => 1 / 2) 0
    (by norm_num) (by norm_num)

end ConcreteSVR
